import Mathlib

/-!
Verification development for flatpak's `builder-cache.c` (the staged
content-addressed build cache engine).

Modelling conventions:
* C byte strings (`char *`) are `List Nat`, one entry per byte.
* The SHA-256 accumulator (`GChecksum`) is modelled by the exact byte
  sequence fed to `g_checksum_update`; the hex digest of the state is
  identified with that byte sequence (an idealized, injective hash).
  Claims about digest (in)equality are therefore claims about the
  absorbed byte sequences, which is precisely the framing property the
  code's comments reason about.
* The external ostree object store is modelled at the interface the code
  uses: refs are an association list from ref name to commit id, commit
  objects are an association list from commit id to a record carrying
  the subject string, parent link, body and an opaque tree value.
  New entries are consed at the front and lookups take the first match,
  matching "the ref now points at the new commit" semantics.
  `ostree_repo_list_refs (repo, prefix, ...)` returns the matching refs
  with `prefix + "/"` stripped from the keys (ostree's documented
  cut-prefix behaviour), which is what `builder_cache_open` stores in
  `unused_stages`.
* Tree contents are opaque (`Nat`): `ostree_repo_write_directory_to_mtree`
  on the working directory yields its current opaque value, and a checkout
  replaces the working directory by the commit's tree value.  The
  mtime-zeroing, xattr-stripping and hardlink filtering affect only byte
  contents of trees, which no claim inspects.
* Fallible store operations are given an explicit failure oracle
  (`CommitFailures`) naming which step of `builder_cache_commit` fails,
  so that the error paths of the C control flow (early `return FALSE`,
  `goto out`, transaction abort) are represented faithfully.
-/

/-- C byte strings: one `Nat` per byte (values are below 256 for real data). -/
abbrev ByteStr := List Nat

/-- `g_ascii_isalnum` on a byte: ASCII 0-9, A-Z, a-z. -/
def isAlnumByte (c : Nat) : Bool :=
  (48 ≤ c && c ≤ 57) || (65 ≤ c && c ≤ 90) || (97 ≤ c && c ≤ 122)

/-- The bytes `get_ref` passes through unescaped: alphanumerics and
`-` (45), `_` (95), `.` (46). -/
def isUnescapedByte (c : Nat) : Bool :=
  isAlnumByte c || c == 45 || c == 95 || c == 46

/-- `printf "%x"` of a byte value: minimal-width lowercase hex digits.
(`char` signedness is implementation-defined in C; we model the byte value
itself, the behaviour on unsigned-`char` targets and on all ASCII data.) -/
def hexBytes (n : Nat) : ByteStr :=
  (Nat.toDigits 16 n).map Char.toNat

/-- The escaping loop of `get_ref` (builder-cache.c:212-222): a `GString`
accumulator seeded with `branch + "/"`, extended one input byte at a time. -/
def get_ref_loop : ByteStr → ByteStr → ByteStr
  | acc, [] => acc
  | acc, c :: rest =>
    if isUnescapedByte c then get_ref_loop (acc ++ [c]) rest
    else get_ref_loop (acc ++ hexBytes c) rest

/-- `get_ref` (builder-cache.c:205-225): derive the stage ref from the
branch and the stage name. -/
def get_ref (branch stage : ByteStr) : ByteStr :=
  get_ref_loop (branch ++ [47]) stage

/-- Modelled from the spec's words (section 6): percent-escape passes
through alphanumerics, `-`, `_`, `.` unchanged and hex-encodes every
other byte.  Used only to compare against the implementation `get_ref`. -/
def percent_escape : ByteStr → ByteStr
  | [] => []
  | c :: rest =>
    (if isUnescapedByte c then [c] else hexBytes c) ++ percent_escape rest

/-- Modelled from the spec's words (section 6): the stage-ref derivation
rule `branch + "/" + percent_escape(stage_name)`. -/
def spec_stage_ref (branch stage : ByteStr) : ByteStr :=
  branch ++ [47] ++ percent_escape stage

/-- One call to a `builder_cache_checksum_*` absorb operation
(builder-cache.c:783-845).  `none` arguments are C `NULL`. -/
inductive AbsorbCall where
  | str : Option ByteStr → AbsorbCall
  | strv : Option (List ByteStr) → AbsorbCall
  | boolean : Bool → AbsorbCall
  | uint32 : Nat → AbsorbCall
  | data : ByteStr → AbsorbCall
deriving DecidableEq

/-- The bytes one absorb call feeds to `g_checksum_update`:
* `builder_cache_checksum_str`: the string plus its terminating zero, or
  the single byte 1 for `NULL`;
* `builder_cache_checksum_strv`: framing byte 1 then each element via
  the string case, or the single byte 2 for `NULL`;
* `builder_cache_checksum_boolean`: one byte, 1 for true and 0 for false;
* `builder_cache_checksum_uint32`: four little-endian bytes;
* `builder_cache_checksum_data`: the raw bytes. -/
def absorbBytes : AbsorbCall → List Nat
  | .str (some s) => s ++ [0]
  | .str none => [1]
  | .strv (some l) => 1 :: (l.map (fun s => s ++ [0])).flatten
  | .strv none => [2]
  | .boolean b => if b then [1] else [0]
  | .uint32 v => [v % 256, v / 256 % 256, v / 65536 % 256, v / 16777216 % 256]
  | .data d => d

/-- Feed one absorb call into the accumulator state. -/
def applyCall (acc : List Nat) (c : AbsorbCall) : List Nat :=
  acc ++ absorbBytes c

/-- Feed a sequence of absorb calls into the accumulator state. -/
def applyCalls (acc : List Nat) (cs : List AbsorbCall) : List Nat :=
  cs.foldl applyCall acc

/-- A commit object in the ostree store: subject line (holding the digest
string written by `builder_cache_commit`), parent link, body, opaque tree. -/
structure CommitObj where
  subject : List Nat
  parent : Option Nat
  body : String
  tree : Nat
deriving DecidableEq

/-- The ostree repository state visible to the engine: named refs and
commit objects, plus a counter supplying fresh commit ids. -/
structure Store where
  refs : List (ByteStr × Nat)
  commits : List (Nat × CommitObj)
  nextId : Nat
deriving DecidableEq

/-- `ostree_repo_resolve_rev` with `allow_noent = TRUE`: the commit id a
ref points at, if any. -/
def resolve (st : Store) (ref : ByteStr) : Option Nat :=
  (st.refs.find? (fun e => e.1 == ref)).map (fun e => e.2)

/-- `ostree_repo_load_variant (OSTREE_OBJECT_TYPE_COMMIT, ...)`: the commit
object stored under an id, if present. -/
def lookupCommit (st : Store) (cid : Nat) : Option CommitObj :=
  (st.commits.find? (fun e => e.1 == cid)).map (fun e => e.2)

/-- `ostree_repo_set_ref_immediate (repo, NULL, ref, NULL, ...)`: drop a ref. -/
def deleteRef (st : Store) (ref : ByteStr) : Store :=
  { st with refs := st.refs.filter (fun e => e.1 != ref) }

/-- `ostree_repo_list_refs (repo, branch, ...)`: the refs under
`branch + "/"`, with that prefix cut from the returned keys. -/
def isPfx : List Nat → List Nat → Bool
  | [], _ => true
  | _ :: _, [] => false
  | a :: as, b :: bs => a == b && isPfx as bs

def listRefs (st : Store) (branch : ByteStr) : List ByteStr :=
  st.refs.filterMap
    (fun e => if isPfx (branch ++ [47]) e.1 then some (e.1.drop (branch.length + 1)) else none)

/-- The set of ref names present in the store (existence of a ref). -/
def refNames (st : Store) : List ByteStr := st.refs.map Prod.fst

/-- The `BuilderCache` instance state (builder-cache.c:39-52) that the
claims inspect: branch, current stage, unused-stage set, last parent,
disabled flag, and the checksum accumulator state. -/
structure BuilderCache where
  branch : ByteStr
  stage : Option ByteStr
  unusedStages : List ByteStr
  last_parent : Option Nat
  disabled : Bool
  checksum : List Nat
deriving DecidableEq

/-- The world a cache instance operates on: its own state, the shared
store, and the working directory (`app_dir`) as an opaque tree value. -/
structure World where
  cache : BuilderCache
  store : Store
  app_dir : Nat
deriving DecidableEq

/-- `builder_cache_open` (builder-cache.c:227-267): removes the legacy
ref named exactly like the branch, then snapshots the stage refs under
the branch (prefix-stripped) as the unused-stage set.  Repo create/open
I/O failures are not modelled (no claim concerns them). -/
def builder_cache_open (st : Store) (branch : ByteStr) : BuilderCache × Store :=
  let st1 := deleteRef st branch
  ({ branch := branch
     stage := none
     unusedStages := listRefs st1 branch
     last_parent := none
     disabled := false
     checksum := [] }, st1)

/-- A freshly opened cache instance bound to a store and working directory. -/
def openWorld (st : Store) (branch : ByteStr) (a : Nat) : World :=
  { cache := (builder_cache_open st branch).1
    store := (builder_cache_open st branch).2
    app_dir := a }

/-- `builder_cache_checkout` (builder-cache.c:277-327): materialize a
commit's tree into the working directory.  The claims never depend on a
missing commit here; the default keeps the function total. -/
def checkoutTree (st : Store) (cid : Nat) (dflt : Nat) : Nat :=
  match lookupCommit st cid with
  | some co => co.tree
  | none => dflt

/-- `builder_cache_lookup` (builder-cache.c:359-415): set the stage,
drop it from the unused set, miss immediately when disabled; otherwise
resolve the stage ref, compare the commit subject with the current
digest; on a hit record the commit as last parent; on a miss check out
the last parent (if any) and set the disabled flag. -/
def builder_cache_lookup (stage : ByteStr) (w : World) : Bool × World :=
  let c1 := { w.cache with
              stage := some stage
              unusedStages := w.cache.unusedStages.filter (fun k => k != stage) }
  if c1.disabled then
    (false, { w with cache := c1 })
  else
    let hit : Option Nat :=
      match resolve w.store (get_ref c1.branch stage) with
      | some cid =>
        match lookupCommit w.store cid with
        | some co => if co.subject == c1.checksum then some cid else none
        | none => none
      | none => none
    match hit with
    | some cid => (true, { w with cache := { c1 with last_parent := some cid } })
    | none =>
      let a' := match c1.last_parent with
                | some p => checkoutTree w.store p w.app_dir
                | none => w.app_dir
      (false, { w with app_dir := a', cache := { c1 with disabled := true } })

/-- Failure oracle for `builder_cache_commit`: which fallible store step
fails during this run (each field mirrors one `if (!...)` in the C code,
in control-flow order). -/
structure CommitFailures where
  zero_mtime : Bool
  prepare_txn : Bool
  write_dir1 : Bool
  write_mtree1 : Bool
  write_commit1 : Bool
  write_dir2 : Bool
  write_mtree2 : Bool
  write_commit2 : Bool
  commit_txn : Bool
  checkout_after : Bool
deriving DecidableEq

/-- The all-steps-succeed oracle. -/
def noCommitFailures : CommitFailures :=
  ⟨false, false, false, false, false, false, false, false, false, false⟩

/-- True when some step up to and including the transaction commit fails,
i.e. the failure happens while (or before) the transaction is open. -/
def txnPhaseFails (f : CommitFailures) : Bool :=
  f.zero_mtime || f.prepare_txn || f.write_dir1 || f.write_mtree1 || f.write_commit1 ||
  f.write_dir2 || f.write_mtree2 || f.write_commit2 || f.commit_txn

/-- The store state after `builder_cache_commit`'s transaction commits:
the full-tree commit (fresh id, subject = current digest, parented on
`last_parent`), the new-files-only commit (next id, subject = current
digest, no parent), and the stage ref repointed at the first commit —
all made visible together by `ostree_repo_commit_transaction`. -/
def commitStore (w : World) (body : String) : Store :=
  { refs := (get_ref w.cache.branch (w.cache.stage.getD []), w.store.nextId) :: w.store.refs
    commits :=
      (w.store.nextId,
        { subject := w.cache.checksum, parent := w.cache.last_parent
          body := body, tree := w.app_dir }) ::
      (w.store.nextId + 1,
        { subject := w.cache.checksum, parent := none, body := body, tree := w.app_dir }) ::
      w.store.commits
    nextId := w.store.nextId + 2 }

/-- The working directory after the final step of a fully successful
`builder_cache_commit`: when rofiles checkouts are in use, the second
(new-files-only) commit is checked back out over the working directory
(same tree contents, now store-backed); otherwise it is left alone. -/
def commitCheckoutDir (use_rofiles : Bool) (w : World) (body : String) : Nat :=
  if use_rofiles then checkoutTree (commitStore w body) (w.store.nextId + 1) w.app_dir
  else w.app_dir

/-- `builder_cache_commit` (builder-cache.c:444-568), with each fallible
step in control-flow order.  Writes staged inside the transaction become
visible only at the transaction-commit step; every failure before that
leaves the store untouched (the C code either returns before
`prepare_transaction` or reaches the `out:` label, which aborts the open
transaction, discarding the staged objects and the staged ref).  After a
successful transaction commit, the rofiles checkout of the second commit
may still fail, in which case the function returns failure with the
writes already landed and `last_parent` not updated; on full success
`last_parent` becomes the first commit's id. -/
def builder_cache_commit (f : CommitFailures) (use_rofiles : Bool) (body : String)
    (w : World) : Bool × World :=
  if f.zero_mtime then (false, w)
  else if f.prepare_txn then (false, w)
  else if f.write_dir1 then (false, w)
  else if f.write_mtree1 then (false, w)
  else if f.write_commit1 then (false, w)
  else if f.write_dir2 then (false, w)
  else if f.write_mtree2 then (false, w)
  else if f.write_commit2 then (false, w)
  else if f.commit_txn then (false, w)
  else if use_rofiles && f.checkout_after then (false, { w with store := commitStore w body })
  else
    (true, { w with
             store := commitStore w body
             app_dir := commitCheckoutDir use_rofiles w body
             cache := { w.cache with last_parent := some w.store.nextId } })

/-- `builder_cache_ensure_checkout` (builder-cache.c:335-351). -/
def builder_cache_ensure_checkout (w : World) : World :=
  if w.cache.disabled then w
  else
    let a' := match w.cache.last_parent with
              | some p => checkoutTree w.store p w.app_dir
              | none => w.app_dir
    { w with app_dir := a', cache := { w.cache with disabled := true } }

/-- `builder_cache_disable_lookups` (builder-cache.c:742-746). -/
def builder_cache_disable_lookups (w : World) : World :=
  { w with cache := { w.cache with disabled := true } }

/-- One round of following parent links from a set of commit ids. -/
def reachAux (st : Store) : Nat → List Nat → List Nat
  | 0, ids => ids
  | n + 1, ids =>
    let nxt := (ids.filterMap (fun i => (lookupCommit st i).bind (fun c => c.parent))).filter
      (fun j => !(ids.contains j))
    if nxt.isEmpty then ids else reachAux st n (ids ++ nxt)

/-- The commit ids reachable from some ref via parent links. -/
def reachableIds (st : Store) : List Nat :=
  reachAux st st.commits.length (st.refs.map (fun e => e.2))

/-- `ostree_repo_prune (OSTREE_REPO_PRUNE_FLAGS_REFS_ONLY, -1, ...)`:
drop commit objects not reachable from any ref; refs are untouched. -/
def pruneStore (st : Store) : Store :=
  let r := reachableIds st
  { st with commits := st.commits.filter (fun e => r.contains e.1) }

/-- `builder_gc` (builder-cache.c:748-781): delete the ref derived from
each still-unused stage key, then prune unreachable objects. -/
def builder_gc (w : World) : World :=
  let refs' := w.cache.unusedStages.foldl
    (fun rs k => rs.filter (fun e => e.1 != get_ref w.cache.branch k)) w.store.refs
  { w with store := pruneStore { w.store with refs := refs' } }

/-- `builder_cache_checksum_str` acting on the instance's accumulator. -/
def builder_cache_checksum_str (w : World) (s : Option ByteStr) : World :=
  { w with cache := { w.cache with checksum := applyCall w.cache.checksum (AbsorbCall.str s) } }

/-- The engine operations a caller can run against one cache instance. -/
inductive CacheOp where
  | lookup : ByteStr → CacheOp
  | commit : CommitFailures → Bool → String → CacheOp
  | absorb : AbsorbCall → CacheOp
  | ensure_checkout : CacheOp
  | disable_lookups : CacheOp
  | gc : CacheOp
deriving DecidableEq

/-- Run one engine operation (results discarded, state kept). -/
def stepOp (w : World) (op : CacheOp) : World :=
  match op with
  | .lookup s => (builder_cache_lookup s w).2
  | .commit f u body => (builder_cache_commit f u body w).2
  | .absorb c => { w with cache := { w.cache with checksum := applyCall w.cache.checksum c } }
  | .ensure_checkout => builder_cache_ensure_checkout w
  | .disable_lookups => builder_cache_disable_lookups w
  | .gc => builder_gc w

/-- The stage names passed to `builder_cache_lookup` in a run. -/
def lookedUpStages (ops : List CacheOp) : List ByteStr :=
  ops.filterMap (fun op => match op with | .lookup s => some s | _ => none)

/-! ### Concrete example data used by witness and counterexample theorems -/

/-- An empty repository. -/
def exEmptyStore : Store := { refs := [], commits := [], nextId := 0 }

/-- An instance whose disabled flag is already set. -/
def exDisabledWorld : World :=
  { cache := { branch := [98], stage := none, unusedStages := [], last_parent := none
               disabled := true, checksum := [] }
    store := exEmptyStore, app_dir := 0 }

/-- A store holding the stage ref `"b/s"` pointing at a commit whose
subject is the digest `[9]`. -/
def exHitStore : Store :=
  { refs := [([98, 47, 115], 4)]
    commits := [(4, { subject := [9], parent := none, body := "", tree := 3 })]
    nextId := 5 }

/-- An enabled instance over `exHitStore` whose current digest is `[9]`. -/
def exHitWorld : World :=
  { cache := { branch := [98], stage := none, unusedStages := [[115]], last_parent := none
               disabled := false, checksum := [9] }
    store := exHitStore, app_dir := 2 }

/-- A store with one ref that does not live under the branch `"b"`. -/
def exNoBranchStore : Store := { refs := [([120], 1)], commits := [], nextId := 2 }

/-- An enabled instance about to commit stage `"s"` with digest `[7]`. -/
def exCommitWorld : World :=
  { cache := { branch := [98], stage := some [115], unusedStages := [], last_parent := none
               disabled := false, checksum := [7] }
    store := exEmptyStore, app_dir := 5 }

/-- The oracle where only the post-transaction rofiles checkout fails. -/
def exCheckoutFail : CommitFailures :=
  { noCommitFailures with checkout_after := true }

/-- The oracle where the transaction-commit step fails. -/
def exTxnFail : CommitFailures :=
  { noCommitFailures with commit_txn := true }

/-- A store holding the stage ref `"b/2b"` — the ref a prior run's commit
of the stage named `"+"` creates — pointing at a commit whose subject is
the empty digest. -/
def exGcStore : Store :=
  { refs := [([98, 47, 50, 98], 0)]
    commits := [(0, { subject := [], parent := none, body := "", tree := 7 })]
    nextId := 1 }

/-! ### Helper lemmas -/

theorem get_ref_loop_eq (s : ByteStr) : ∀ acc : ByteStr,
    get_ref_loop acc s = acc ++ percent_escape s := by
  induction s with
  | nil => intro acc; simp [get_ref_loop, percent_escape]
  | cons c rest ih =>
    intro acc
    by_cases h : isUnescapedByte c = true
    · simp [get_ref_loop, percent_escape, h, ih, List.append_assoc]
    · simp only [Bool.not_eq_true] at h
      simp [get_ref_loop, percent_escape, h, ih, List.append_assoc]

theorem get_ref_eq (b s : ByteStr) : get_ref b s = b ++ 47 :: percent_escape s := by
  simp [get_ref, get_ref_loop_eq, List.append_assoc]

theorem get_ref_ne_branch (b s : ByteStr) : get_ref b s ≠ b := by
  intro h
  have hl := congrArg List.length h
  rw [get_ref_eq] at hl
  simp [List.length_append] at hl

theorem percent_escape_unescaped (s : ByteStr) (h : s.all isUnescapedByte = true) :
    percent_escape s = s := by
  induction s with
  | nil => rfl
  | cons c rest ih =>
    simp only [List.all_cons, Bool.and_eq_true] at h
    simp [percent_escape, h.1, ih h.2]

theorem applyCalls_eq (cs : List AbsorbCall) : ∀ acc : List Nat,
    applyCalls acc cs = acc ++ applyCalls [] cs := by
  induction cs with
  | nil => intro acc; simp [applyCalls]
  | cons c rest ih =>
    intro acc
    show applyCalls (applyCall acc c) rest = acc ++ applyCalls (applyCall [] c) rest
    rw [ih (applyCall acc c), ih (applyCall [] c)]
    simp [applyCall, List.append_assoc]

theorem isPfx_append (p t : List Nat) : isPfx p (p ++ t) = true := by
  induction p with
  | nil => rfl
  | cons a as ih => simp [isPfx, ih]

/-! ### Claims about the checksum accumulator and ref derivation -/

/-- C5: for every branch and stage name, the ref derived by `get_ref`
equals `branch + "/" + percent_escape(stage)` where `percent_escape`
passes ASCII alphanumerics and `-`, `_`, `.` through unchanged and
hex-encodes every other byte. -/
theorem stage_ref_derivation_format (branch stage : ByteStr) :
    get_ref branch stage = spec_stage_ref branch stage := by
  rw [get_ref_eq, spec_stage_ref, List.append_assoc]
  rfl

/-- C10: stage-ref derivation is not injective: for every branch there
are two distinct stage names deriving the same stage ref (the stage
`"+"` hex-encodes to the literal characters `"2b"`, colliding with the
stage literally named `"2b"`). -/
theorem stage_ref_not_injective (branch : ByteStr) :
    ∃ s1 s2 : ByteStr, s1 ≠ s2 ∧ get_ref branch s1 = get_ref branch s2 := by
  refine ⟨[43], [50, 98], by decide, ?_⟩
  rw [get_ref_eq, get_ref_eq]
  exact congrArg (fun t => branch ++ 47 :: t) (by decide)

/-- C6: absorbing a `NULL` string and absorbing the empty string append
different byte sequences (`0x01` versus the lone terminating `0x00`), so
the two accumulator states differ and stay different under any identical
sequence of subsequent absorb calls. -/
theorem null_vs_empty_string_framing (w : World) (rest : List AbsorbCall) :
    absorbBytes (AbsorbCall.str none) ≠ absorbBytes (AbsorbCall.str (some [])) ∧
    applyCalls (builder_cache_checksum_str w none).cache.checksum rest ≠
      applyCalls (builder_cache_checksum_str w (some [])).cache.checksum rest := by
  constructor
  · decide
  · intro h
    have e1 : (builder_cache_checksum_str w none).cache.checksum =
        w.cache.checksum ++ [1] := by
      simp [builder_cache_checksum_str, applyCall, absorbBytes]
    have e2 : (builder_cache_checksum_str w (some [])).cache.checksum =
        w.cache.checksum ++ [0] := by
      simp [builder_cache_checksum_str, applyCall, absorbBytes]
    rw [e1, e2, applyCalls_eq rest (w.cache.checksum ++ [1]),
        applyCalls_eq rest (w.cache.checksum ++ [0])] at h
    have h3 := List.append_cancel_left (List.append_cancel_right h)
    exact absurd h3 (by decide)

/-- C9: absorbing boolean true, absorbing a `NULL` string, and the framing
byte of a non-null string list all feed the same single byte `0x01`, so the
two distinct one-call absorb sequences `[boolean true]` and `[str NULL]`
leave any accumulator in identical states. -/
theorem cross_type_framing_collision :
    ([AbsorbCall.boolean true] ≠ [AbsorbCall.str none]) ∧
    absorbBytes (AbsorbCall.boolean true) = [1] ∧
    absorbBytes (AbsorbCall.str none) = [1] ∧
    (∀ l : List ByteStr, (absorbBytes (AbsorbCall.strv (some l))).take 1 = [1]) ∧
    (∀ acc : List Nat,
      applyCalls acc [AbsorbCall.boolean true] = applyCalls acc [AbsorbCall.str none]) := by
  refine ⟨by decide, rfl, rfl, fun l => rfl, fun acc => rfl⟩

/-! ### Frame and monotonicity lemmas for the engine operations -/

theorem lookup_disabled (s : ByteStr) (w : World) (h : w.cache.disabled = true) :
    builder_cache_lookup s w =
      (false, { w with cache := { w.cache with
                stage := some s
                unusedStages := w.cache.unusedStages.filter (fun k => k != s) } }) := by
  simp [builder_cache_lookup, h]

theorem lookup_hit_eq (w : World) (s : ByteStr) (cid : Nat) (co : CommitObj)
    (hdis : w.cache.disabled = false)
    (hres : resolve w.store (get_ref w.cache.branch s) = some cid)
    (hload : lookupCommit w.store cid = some co)
    (hsub : co.subject = w.cache.checksum) :
    builder_cache_lookup s w =
      (true, { w with cache := { w.cache with
               stage := some s
               unusedStages := w.cache.unusedStages.filter (fun k => k != s)
               last_parent := some cid } }) := by
  simp [builder_cache_lookup, hdis, hres, hload, hsub]

theorem lookup_miss_sets_disabled (s : ByteStr) (w : World)
    (h : (builder_cache_lookup s w).1 = false) :
    (builder_cache_lookup s w).2.cache.disabled = true := by
  simp only [builder_cache_lookup] at h ⊢
  repeat' split at h
  all_goals simp_all

theorem lookup_frame (s : ByteStr) (w : World) :
    (builder_cache_lookup s w).2.cache.branch = w.cache.branch ∧
    (builder_cache_lookup s w).2.cache.unusedStages =
      w.cache.unusedStages.filter (fun k => k != s) ∧
    (builder_cache_lookup s w).2.store = w.store ∧
    (builder_cache_lookup s w).2.cache.checksum = w.cache.checksum := by
  simp only [builder_cache_lookup]
  repeat' split
  all_goals simp

theorem commit_cache_state (f : CommitFailures) (u : Bool) (body : String) (w : World) :
    (builder_cache_commit f u body w).2.cache.branch = w.cache.branch ∧
    (builder_cache_commit f u body w).2.cache.unusedStages = w.cache.unusedStages ∧
    (builder_cache_commit f u body w).2.cache.disabled = w.cache.disabled := by
  unfold builder_cache_commit
  repeat' split
  all_goals exact ⟨rfl, rfl, rfl⟩

theorem commit_refs_mono (f : CommitFailures) (u : Bool) (body : String) (w : World)
    (n : ByteStr) (hn : n ∈ refNames w.store) :
    n ∈ refNames (builder_cache_commit f u body w).2.store := by
  unfold builder_cache_commit
  repeat' split
  all_goals simp only [refNames, commitStore, List.map_cons, List.mem_cons] at hn ⊢
  all_goals first
    | exact hn
    | exact Or.inr hn

theorem stepOp_disabled_mono (w : World) (op : CacheOp) (h : w.cache.disabled = true) :
    (stepOp w op).cache.disabled = true := by
  cases op with
  | lookup s => simp [stepOp, lookup_disabled s w h, h]
  | commit f u body =>
    have hc := (commit_cache_state f u body w).2.2
    simp [stepOp, hc, h]
  | absorb c => simp [stepOp, h]
  | ensure_checkout => simp [stepOp, builder_cache_ensure_checkout, h]
  | disable_lookups => simp [stepOp, builder_cache_disable_lookups]
  | gc => simp [stepOp, builder_gc, h]

theorem foldl_disabled_mono (ops : List CacheOp) : ∀ w : World,
    w.cache.disabled = true → (List.foldl stepOp w ops).cache.disabled = true := by
  induction ops with
  | nil => intro w h; simpa
  | cons op rest ih => intro w h; exact ih _ (stepOp_disabled_mono w op h)

/-! ### Claims about the disabled flag and lookup behaviour -/

/-- C2: the disabled flag is sticky and monotonic: a lookup that misses
leaves the flag set; every engine operation preserves a set flag; after
any operation sequence following a state with the flag set, lookups still
miss; and a disabled lookup misses for every store contents, without
writing to the store. -/
theorem disabled_flag_sticky_monotonic :
    (∀ (w : World) (s : ByteStr),
      (builder_cache_lookup s w).1 = false →
      (builder_cache_lookup s w).2.cache.disabled = true) ∧
    (∀ (w : World) (op : CacheOp),
      w.cache.disabled = true → (stepOp w op).cache.disabled = true) ∧
    (∀ (w : World) (ops : List CacheOp) (s : ByteStr), w.cache.disabled = true →
      (builder_cache_lookup s (List.foldl stepOp w ops)).1 = false) ∧
    (∀ (w : World) (s : ByteStr) (st : Store), w.cache.disabled = true →
      (builder_cache_lookup s { w with store := st }).1 = false ∧
      (builder_cache_lookup s { w with store := st }).2.store = st) := by
  refine ⟨fun w s => lookup_miss_sets_disabled s w, stepOp_disabled_mono, ?_, ?_⟩
  · intro w ops s h
    rw [lookup_disabled s _ (foldl_disabled_mono ops w h)]
  · intro w s st h
    rw [lookup_disabled s { w with store := st } (by simpa using h)]
    exact ⟨rfl, rfl⟩

/-- C2 witness. -/
theorem disabled_flag_sticky_monotonic_witness :
    (builder_cache_lookup [115]
      (List.foldl stepOp exDisabledWorld [CacheOp.ensure_checkout])).1 = false :=
  disabled_flag_sticky_monotonic.2.2.1 exDisabledWorld [CacheOp.ensure_checkout] [115] rfl

/-- C7: whenever the instance is enabled, the stage ref resolves, and the
resolved commit's subject equals the current digest, lookup returns a hit
whose only state changes are the current stage, the unused-stage set and
the last parent: the working directory, the disabled flag, the checksum
and the store are all untouched. -/
theorem lookup_hit_frame_condition (w : World) (s : ByteStr) (cid : Nat) (co : CommitObj)
    (hdis : w.cache.disabled = false)
    (hres : resolve w.store (get_ref w.cache.branch s) = some cid)
    (hload : lookupCommit w.store cid = some co)
    (hsub : co.subject = w.cache.checksum) :
    builder_cache_lookup s w =
      (true, { w with cache := { w.cache with
               stage := some s
               unusedStages := w.cache.unusedStages.filter (fun k => k != s)
               last_parent := some cid } }) :=
  lookup_hit_eq w s cid co hdis hres hload hsub

/-- C7 witness. -/
theorem lookup_hit_frame_condition_witness :
    builder_cache_lookup [115] exHitWorld =
      (true, { exHitWorld with cache := { exHitWorld.cache with
               stage := some [115]
               unusedStages := exHitWorld.cache.unusedStages.filter (fun k => k != [115])
               last_parent := some 4 } }) :=
  lookup_hit_frame_condition exHitWorld [115] 4
    { subject := [9], parent := none, body := "", tree := 3 }
    rfl (by decide) (by decide) rfl

theorem listRefs_deleteRef_nil (st : Store) (b r : ByteStr)
    (h : listRefs st b = []) : listRefs (deleteRef st r) b = [] := by
  have h' := List.filterMap_eq_nil_iff.1 h
  exact List.filterMap_eq_nil_iff.2
    (fun e he => h' e (List.mem_of_mem_filter he))

theorem resolve_getRef_none (st : Store) (b s : ByteStr)
    (h : listRefs st b = []) : resolve st (get_ref b s) = none := by
  unfold resolve
  cases hf : st.refs.find? (fun e => e.1 == get_ref b s) with
  | none => rfl
  | some e =>
    exfalso
    have hmem : e ∈ st.refs := List.mem_of_find?_eq_some hf
    have heq : e.1 = get_ref b s := by simpa using List.find?_some hf
    have hpfx : isPfx (b ++ [47]) e.1 = true := by
      rw [heq, get_ref_eq]
      have h2 := isPfx_append (b ++ [47]) (percent_escape s)
      rwa [List.append_assoc, List.singleton_append] at h2
    have hin : e.1.drop (b.length + 1) ∈ listRefs st b := by
      unfold listRefs
      exact List.mem_filterMap.2 ⟨e, hmem, by simp [hpfx]⟩
    rw [h] at hin
    simp at hin

/-- C8: a lookup done immediately after opening a store with no refs under
the branch misses, sets the disabled flag, leaves the working directory
alone (no checkout happens) and leaves the last parent unset. -/
theorem first_lookup_after_open_empty (st : Store) (branch s : ByteStr) (a : Nat)
    (hempty : listRefs st branch = []) :
    (builder_cache_lookup s (openWorld st branch a)).1 = false ∧
    (builder_cache_lookup s (openWorld st branch a)).2.cache.disabled = true ∧
    (builder_cache_lookup s (openWorld st branch a)).2.app_dir = a ∧
    (builder_cache_lookup s (openWorld st branch a)).2.cache.last_parent = none := by
  have hres : resolve (deleteRef st branch) (get_ref branch s) = none :=
    resolve_getRef_none _ _ _ (listRefs_deleteRef_nil st branch branch hempty)
  simp [builder_cache_lookup, openWorld, builder_cache_open, hres]

/-- C8 witness. -/
theorem first_lookup_after_open_empty_witness :
    (builder_cache_lookup [115] (openWorld exNoBranchStore [98] 6)).1 = false ∧
    (builder_cache_lookup [115] (openWorld exNoBranchStore [98] 6)).2.cache.disabled = true ∧
    (builder_cache_lookup [115] (openWorld exNoBranchStore [98] 6)).2.app_dir = 6 ∧
    (builder_cache_lookup [115] (openWorld exNoBranchStore [98] 6)).2.cache.last_parent = none :=
  first_lookup_after_open_empty exNoBranchStore [98] [115] 6 (by decide)

theorem commit_success_state (f : CommitFailures) (u : Bool) (body : String) (w : World)
    (h : (builder_cache_commit f u body w).1 = true) :
    (builder_cache_commit f u body w).2.store = commitStore w body ∧
    (builder_cache_commit f u body w).2.cache.last_parent = some w.store.nextId := by
  unfold builder_cache_commit at h ⊢
  repeat' split
  all_goals simp_all

/-- C3 (amended): the two commit writes and the ref update happen inside
one store transaction, so a failure at any step up to and including the
transaction commit returns failure with the world — in particular the
store — exactly as before (all three writes land together or not at all);
but when the transaction phase succeeds, the stage ref resolves to the
first new commit and both commit objects are present, even if the
post-transaction rofiles checkout fails and makes the call return failure. -/
theorem commit_transaction_atomicity (f : CommitFailures) (u : Bool) (body : String) (w : World) :
    (txnPhaseFails f = true → builder_cache_commit f u body w = (false, w)) ∧
    (txnPhaseFails f = false →
      (builder_cache_commit f u body w).2.store = commitStore w body ∧
      resolve (builder_cache_commit f u body w).2.store
        (get_ref w.cache.branch (w.cache.stage.getD [])) = some w.store.nextId ∧
      lookupCommit (builder_cache_commit f u body w).2.store w.store.nextId =
        some { subject := w.cache.checksum, parent := w.cache.last_parent
               body := body, tree := w.app_dir } ∧
      lookupCommit (builder_cache_commit f u body w).2.store (w.store.nextId + 1) =
        some { subject := w.cache.checksum, parent := none, body := body, tree := w.app_dir }) := by
  constructor
  · intro h
    unfold builder_cache_commit
    repeat' split
    all_goals first | rfl | (exfalso; simp_all [txnPhaseFails])
  · intro h
    simp only [txnPhaseFails, Bool.or_eq_false_iff] at h
    obtain ⟨⟨⟨⟨⟨⟨⟨⟨h1, h2⟩, h3⟩, h4⟩, h5⟩, h6⟩, h7⟩, h8⟩, h9⟩ := h
    have hst : (builder_cache_commit f u body w).2.store = commitStore w body := by
      unfold builder_cache_commit
      simp only [h1, h2, h3, h4, h5, h6, h7, h8, h9, Bool.false_eq_true, if_false]
      split
      · rfl
      · rfl
    refine ⟨hst, ?_, ?_, ?_⟩ <;> rw [hst] <;> simp [resolve, lookupCommit, commitStore]

/-- C3 counterexample: a run of `builder_cache_commit` in which only the
post-transaction rofiles checkout fails returns failure, yet the store
has changed — the claim that every failing run leaves the store as if
nothing was written is false on the code. -/
theorem commit_atomicity_counterexample :
    (builder_cache_commit exCheckoutFail true "" exCommitWorld).1 = false ∧
    (builder_cache_commit exCheckoutFail true "" exCommitWorld).2.store ≠ exCommitWorld.store := by
  decide

/-- C3 witness. -/
theorem commit_transaction_atomicity_witness :
    (builder_cache_commit exTxnFail false "" exCommitWorld = (false, exCommitWorld)) ∧
    (builder_cache_commit noCommitFailures false "" exCommitWorld).2.store =
      commitStore exCommitWorld "" :=
  ⟨(commit_transaction_atomicity exTxnFail false "" exCommitWorld).1 (by decide),
   ((commit_transaction_atomicity noCommitFailures false "" exCommitWorld).2 (by decide)).1⟩

/-- C1: after a successful `builder_cache_commit` for stage `S` with
digest `D`, a fresh instance opened against the resulting store and fed
an absorb sequence reproducing `D` reports `builder_cache_lookup S` as a
hit: the commit stored the digest as the new commit's subject under the
stage's ref, and lookup compares that subject against the current digest. -/
theorem commit_lookup_roundtrip (w : World) (S : ByteStr) (body : String)
    (f : CommitFailures) (u : Bool) (calls : List AbsorbCall) (a : Nat)
    (hstage : w.cache.stage = some S)
    (hsucc : (builder_cache_commit f u body w).1 = true)
    (hcalls : applyCalls [] calls = w.cache.checksum) :
    (builder_cache_lookup S
      { cache :=
          { (builder_cache_open (builder_cache_commit f u body w).2.store w.cache.branch).1 with
            checksum :=
              applyCalls
                ((builder_cache_open (builder_cache_commit f u body w).2.store
                  w.cache.branch).1).checksum calls }
        store := (builder_cache_open (builder_cache_commit f u body w).2.store w.cache.branch).2
        app_dir := a }).1 = true := by
  obtain ⟨hst, -⟩ := commit_success_state f u body w hsucc
  rw [hst]
  have hne : (get_ref w.cache.branch S != w.cache.branch) = true :=
    bne_iff_ne.2 (get_ref_ne_branch _ _)
  have hres : resolve (deleteRef (commitStore w body) w.cache.branch)
      (get_ref w.cache.branch S) = some w.store.nextId := by
    simp [resolve, deleteRef, commitStore, hstage, hne]
  have hload : lookupCommit (deleteRef (commitStore w body) w.cache.branch) w.store.nextId =
      some { subject := w.cache.checksum, parent := w.cache.last_parent
             body := body, tree := w.app_dir } := by
    simp [lookupCommit, deleteRef, commitStore]
  simp [builder_cache_lookup, builder_cache_open, hres, hload, hcalls, applyCalls_eq]

/-- C1 witness. -/
theorem commit_lookup_roundtrip_witness :
    (builder_cache_commit noCommitFailures false "" exCommitWorld).1 = true ∧
    (builder_cache_lookup [115]
      { cache :=
          { (builder_cache_open (builder_cache_commit noCommitFailures false "" exCommitWorld).2.store
              exCommitWorld.cache.branch).1 with
            checksum :=
              applyCalls
                ((builder_cache_open (builder_cache_commit noCommitFailures false "" exCommitWorld).2.store
                  exCommitWorld.cache.branch).1).checksum [AbsorbCall.data [7]] }
        store := (builder_cache_open (builder_cache_commit noCommitFailures false "" exCommitWorld).2.store
          exCommitWorld.cache.branch).2
        app_dir := 9 }).1 = true :=
  ⟨by decide,
   commit_lookup_roundtrip exCommitWorld [115] "" noCommitFailures false
     [AbsorbCall.data [7]] 9 rfl (by decide) (by decide)⟩

/-- C4 failing run: the store opened by the instance holds exactly one
stage ref — `get_ref "b" "+" = "b/2b"`, the ref a prior run's commit of
the stage named `"+"` created.  That stage is looked up during the run
(the lookup even hits), yet after `builder_gc` its ref is gone from the
store: `builder_cache_open` records the prefix-stripped, escaped key
`"2b"` in the unused-stage set, while `builder_cache_lookup` removes the
raw name `"+"`, so the key survives to `builder_gc`, which then deletes
`"b/2b"` — the ref of a stage that was looked up — contradicting the
purge-only-unused-stages intent stated in builder-cache.c:259. -/
theorem gc_deletes_looked_up_stage_ref :
    refNames (openWorld exGcStore [98] 0).store = [get_ref [98] [43]] ∧
    (builder_cache_lookup [43] (openWorld exGcStore [98] 0)).1 = true ∧
    get_ref [98] [43] ∉
      refNames (builder_gc (builder_cache_lookup [43] (openWorld exGcStore [98] 0)).2).store := by
  decide
